import Mathlib

/-!
Shallow embedding of `src/components/object-detection/app.py`: the threat
analyzer (`analyze_threat_with_groq`), the detection-loop confidence filter
(`detection_loop`), the broadcast fan-out (`broadcast_detection_data`), the
stream lifecycle (`start_stream`, `stop_stream`) and the websocket
disconnect cleanup (`websocket_endpoint`). Machine-level effects (the HTTP
shell, the camera, the YOLO model, the Groq HTTP exchange) are modelled as
explicit inputs at their interface boundary; all logic of the Python file
itself is translated directly.
-/

namespace App

/-- An accumulated detection as consumed by `analyze_threat_with_groq`:
a dict with keys `class_name` and `confidence`. Confidence is modelled
as a rational. -/
structure Detection where
  class_name : String
  confidence : ℚ
deriving Repr, DecidableEq

/-- JSON values as produced by Python's `json` module (numbers as rationals). -/
inductive Json where
  | null : Json
  | bool : Bool → Json
  | num : ℚ → Json
  | str : String → Json
  | arr : List Json → Json
  | obj : List (String × Json) → Json
deriving Repr

/-- Dict key lookup on a JSON object (first match; keys produced by the
code are distinct). -/
def Json.getKey : Json → String → Option Json
  | Json.obj kvs, k => kvs.lookup k
  | _, _ => none

/-- Whether `pat` is a prefix of `s` (character lists). -/
def isPrefixL : List Char → List Char → Bool
  | [], _ => true
  | _ :: _, [] => false
  | a :: as, b :: bs => a == b && isPrefixL as bs

/-- Whether `pat` occurs as a contiguous substring of `s`, as Python's
`pat in s` on strings. -/
def isInfixL (pat : List Char) : List Char → Bool
  | [] => isPrefixL pat []
  | c :: t => isPrefixL pat (c :: t) || isInfixL pat t

/-- Python's `str.lower()` as a character list (class names are ASCII). -/
def lowerL (s : String) : List Char :=
  s.data.map Char.toLower

/-- Line 207-210: `"weapon" in name.lower() or "knife" in ... or "gun" in ...
or "scissors" in ...`. -/
def keywordHit (name : String) : Bool :=
  isInfixL "weapon".data (lowerL name) ||
  isInfixL "knife".data (lowerL name) ||
  isInfixL "gun".data (lowerL name) ||
  isInfixL "scissors".data (lowerL name)

/-- Lines 206-211: the list-comprehension
`[obj["class_name"] for obj in accumulated_objects if <keywordHit>]`. -/
def fallbackKeywords (objs : List Detection) : List String :=
  (objs.filter (fun o => keywordHit o.class_name)).map Detection.class_name

/-- Lines 116-125: the report returned for a falsy `accumulated_objects`. -/
def emptyReport : Json :=
  Json.obj [
    ("threat_level", Json.str "low"),
    ("threat_percentage", Json.num 0),
    ("risk_breakdown", Json.obj
      [("high", Json.num 0), ("medium", Json.num 0), ("low", Json.num 100)]),
    ("flagged_content", Json.str "No objects detected during the session."),
    ("detected_keywords", Json.arr []),
    ("summary", Json.str "No threats detected in the video analysis session."),
    ("recommendations", Json.arr
      [Json.str "Continue regular monitoring",
       Json.str "No immediate action required"])]

/-- Lines 206-240: the fallback heuristic report built in the `except` branch. -/
def fallbackReport (objs : List Detection) : Json :=
  let kws := fallbackKeywords objs
  if kws.isEmpty then
    Json.obj [
      ("threat_level", Json.str "low"),
      ("threat_percentage", Json.num 0),
      ("risk_breakdown", Json.obj
        [("high", Json.num 0), ("medium", Json.num 0), ("low", Json.num 100)]),
      ("flagged_content", Json.str "No dangerous objects detected."),
      ("detected_keywords", Json.arr (kws.map Json.str)),
      ("summary", Json.str "Low-risk situation based on detected objects."),
      ("recommendations", Json.arr
        [Json.str "Continue monitoring",
         Json.str "No immediate action required"])]
  else
    let pct : ℕ := min 100 (kws.length * 20)
    Json.obj [
      ("threat_level", Json.str "high"),
      ("threat_percentage", Json.num (pct : ℚ)),
      ("risk_breakdown", Json.obj
        [("high", Json.num (pct : ℚ)),
         ("medium", Json.num ((100 - pct : ℕ) : ℚ)),
         ("low", Json.num 0)]),
      ("flagged_content", Json.str
        ("Dangerous objects detected: " ++ String.intercalate ", " kws ++ ".")),
      ("detected_keywords", Json.arr (kws.map Json.str)),
      ("summary", Json.str
        ("High-risk situation detected with " ++ toString kws.length
          ++ " dangerous objects.")),
      ("recommendations", Json.arr
        [Json.str "Issue immediate alert: sharp weapon detected",
         Json.str "Alert local law enforcement for potential threat",
         Json.str "Discourage any approach — object could be concealed or used rapidly"])]

/-- JSON whitespace characters (as accepted by Python's `json.loads`). -/
def jsonWs (c : Char) : Bool :=
  c == ' ' || c == '\t' || c == '\n' || c == '\r'

/-- Drop leading JSON whitespace. -/
def skipWs (cs : List Char) : List Char :=
  cs.dropWhile jsonWs

/-- Value of a hexadecimal digit, if any. -/
def hexVal (c : Char) : Option ℕ :=
  if '0' ≤ c && c ≤ '9' then some (c.toNat - 48)
  else if 'a' ≤ c && c ≤ 'f' then some (c.toNat - 87)
  else if 'A' ≤ c && c ≤ 'F' then some (c.toNat - 55)
  else none

/-- Body of a JSON string after the opening quote: consumes up to the closing
quote, resolving escapes (surrogate-pair recombination is not modelled). -/
def parseStringBody : List Char → List Char → Option (String × List Char)
  | [], _ => none
  | '"' :: rest, acc => some (String.mk acc.reverse, rest)
  | '\\' :: '"' :: rest, acc => parseStringBody rest ('"' :: acc)
  | '\\' :: '\\' :: rest, acc => parseStringBody rest ('\\' :: acc)
  | '\\' :: '/' :: rest, acc => parseStringBody rest ('/' :: acc)
  | '\\' :: 'b' :: rest, acc => parseStringBody rest (Char.ofNat 8 :: acc)
  | '\\' :: 'f' :: rest, acc => parseStringBody rest (Char.ofNat 12 :: acc)
  | '\\' :: 'n' :: rest, acc => parseStringBody rest ('\n' :: acc)
  | '\\' :: 'r' :: rest, acc => parseStringBody rest ('\r' :: acc)
  | '\\' :: 't' :: rest, acc => parseStringBody rest ('\t' :: acc)
  | '\\' :: 'u' :: h1 :: h2 :: h3 :: h4 :: rest, acc =>
    match hexVal h1, hexVal h2, hexVal h3, hexVal h4 with
    | some a, some b, some c, some d =>
      parseStringBody rest (Char.ofNat (((a * 16 + b) * 16 + c) * 16 + d) :: acc)
    | _, _, _, _ => none
  | '\\' :: _, _ => none
  | c :: rest, acc =>
    if c.toNat ≥ 32 then parseStringBody rest (c :: acc) else none

/-- Decimal digits to a natural number. -/
def digitsToNat (ds : List Char) : ℕ :=
  ds.foldl (fun a c => 10 * a + (c.toNat - 48)) 0

/-- Optional fraction part of a JSON number (`none` in the first component
when there is no fraction part). -/
def parseFrac : List Char → Option (Option ℚ × List Char)
  | '.' :: rest =>
    let p := rest.span Char.isDigit
    if p.1.isEmpty then none
    else some (some ((digitsToNat p.1 : ℚ) / ((10 : ℚ) ^ p.1.length)), p.2)
  | cs => some (none, cs)

/-- Optional exponent part of a JSON number, returned as a multiplier
(`none` in the first component when there is no exponent part). -/
def parseExpPart : List Char → Option (Option ℚ × List Char)
  | c :: rest =>
    if c == 'e' || c == 'E' then
      let sp : Bool × List Char :=
        match rest with
        | '+' :: r => (false, r)
        | '-' :: r => (true, r)
        | r => (false, r)
      let p := sp.2.span Char.isDigit
      if p.1.isEmpty then none
      else
        let e := digitsToNat p.1
        some (some (if sp.1 then 1 / ((10 : ℚ) ^ e) else ((10 : ℚ) ^ e)), p.2)
    else some (none, c :: rest)
  | [] => some (none, [])

/-- A JSON number (grammar: optional minus, integer part without leading
zeros, optional fraction, optional exponent). A bare integer literal is an
exact integer, as Python's `int`; otherwise the rational value is assembled
from the parts. -/
def parseNum (cs : List Char) : Option (ℚ × List Char) :=
  let sp : Bool × List Char :=
    match cs with
    | '-' :: rest => (true, rest)
    | _ => (false, cs)
  match sp.2 with
  | [] => none
  | c :: _ =>
    if c.isDigit then
      let p := sp.2.span Char.isDigit
      if c == '0' && p.1.length != 1 then none
      else
        match parseFrac p.2 with
        | none => none
        | some (f, cs3) =>
          match parseExpPart cs3 with
          | none => none
          | some (m, cs4) =>
            match f, m with
            | none, none =>
              let i : ℤ := digitsToNat p.1
              some (((if sp.1 then -i else i : ℤ) : ℚ), cs4)
            | _, _ =>
              let v : ℚ := ((digitsToNat p.1 : ℚ) + f.getD 0) * m.getD 1
              some (if sp.1 then -v else v, cs4)
    else none

mutual

/-- A JSON value, fuelled; models `json.loads` recognition. -/
def parseVal : ℕ → List Char → Option (Json × List Char)
  | 0, _ => none
  | fuel + 1, cs =>
    match skipWs cs with
    | [] => none
    | c :: rest =>
      if c == '"' then
        match parseStringBody rest [] with
        | some (s, r) => some (Json.str s, r)
        | none => none
      else if c == '{' then
        match skipWs rest with
        | '}' :: r => some (Json.obj [], r)
        | cs2 => parseMembers fuel cs2 []
      else if c == '[' then
        match skipWs rest with
        | ']' :: r => some (Json.arr [], r)
        | cs2 => parseElems fuel cs2 []
      else if c == 't' then
        match rest with
        | 'r' :: 'u' :: 'e' :: r => some (Json.bool true, r)
        | _ => none
      else if c == 'f' then
        match rest with
        | 'a' :: 'l' :: 's' :: 'e' :: r => some (Json.bool false, r)
        | _ => none
      else if c == 'n' then
        match rest with
        | 'u' :: 'l' :: 'l' :: r => some (Json.null, r)
        | _ => none
      else if c == '-' || c.isDigit then
        match parseNum (c :: rest) with
        | some (q, r) => some (Json.num q, r)
        | none => none
      else none

/-- One or more `"key": value` members of a JSON object, then `}`. -/
def parseMembers : ℕ → List Char → List (String × Json) → Option (Json × List Char)
  | 0, _, _ => none
  | fuel + 1, cs, acc =>
    match skipWs cs with
    | '"' :: rest =>
      match parseStringBody rest [] with
      | none => none
      | some (k, r1) =>
        match skipWs r1 with
        | ':' :: r2 =>
          match parseVal fuel r2 with
          | none => none
          | some (v, r3) =>
            match skipWs r3 with
            | ',' :: r4 => parseMembers fuel r4 ((k, v) :: acc)
            | '}' :: r4 => some (Json.obj ((k, v) :: acc).reverse, r4)
            | _ => none
        | _ => none
    | _ => none

/-- One or more elements of a JSON array, then `]`. -/
def parseElems : ℕ → List Char → List Json → Option (Json × List Char)
  | 0, _, _ => none
  | fuel + 1, cs, acc =>
    match parseVal fuel cs with
    | none => none
    | some (v, r1) =>
      match skipWs r1 with
      | ',' :: r2 => parseElems fuel r2 (v :: acc)
      | ']' :: r2 => some (Json.arr (v :: acc).reverse, r2)
      | _ => none

end

/-- Python's `json.loads`: parse a complete JSON document (whole input
consumed up to trailing whitespace), `none` on a `JSONDecodeError`. -/
def jsonLoads (s : String) : Option Json :=
  match parseVal (2 * s.length + 4) s.data with
  | none => none
  | some (j, rest) => if (skipWs rest).isEmpty then some j else none

/-- Lines 193-194: `re.search(r'\x7b.*\x7d', analysis_text, re.DOTALL)` — the
leftmost-greedy match runs from the first opening brace to the last closing
brace, provided the latter is not earlier. -/
def extractBraces (s : String) : Option String :=
  let cs := s.data
  match cs.findIdx? (fun c => c == '{'), cs.reverse.findIdx? (fun c => c == '}') with
  | some i, some jr =>
    let j := cs.length - 1 - jr
    if i ≤ j then some (String.mk ((cs.drop i).take (j - i + 1))) else none
  | _, _ => none

/-- Outcome of the external Groq exchange, at the interface boundary of
lines 158-201: the credential lookup, the HTTP POST, and the
`response.json()["choices"][0]["message"]["content"]` access. `content none`
models a 200 response whose body is not JSON of that shape. -/
inductive ExtResult where
  | noKey : ExtResult
  | requestError : String → ExtResult
  | response : ℕ → Option String → String → ExtResult
deriving Repr, DecidableEq

/-- Which branch of `analyze_threat_with_groq` produced the returned report. -/
inductive Source where
  | emptyInput : Source
  | external : Source
  | fallback : Source
deriving Repr, DecidableEq

/-- Python truthiness test of line 116 (`if not accumulated_objects:`) on an
`Optional[list]` value. -/
def pyFalsy : Option (List Detection) → Bool
  | none => true
  | some [] => true
  | some (_ :: _) => false

/-- Whether the external exchange ends in the `except` branch: no credential,
a raised request error, a non-200 status, a malformed response body, or no
parsable brace-delimited JSON in the message content. -/
def extFails : ExtResult → Bool
  | ExtResult.noKey => true
  | ExtResult.requestError _ => true
  | ExtResult.response status content _ =>
    if status == 200 then
      match content with
      | none => true
      | some text =>
        match extractBraces text with
        | none => true
        | some sub => (jsonLoads sub).isNone
    else true

/-- Lines 114-240: `analyze_threat_with_groq`, with the external exchange an
explicit input and the produced report tagged with its source branch. -/
def analyze_threat_with_groq (objs : Option (List Detection)) (ext : ExtResult) :
    Json × Source :=
  if pyFalsy objs then (emptyReport, Source.emptyInput)
  else
    let l := objs.getD []
    match ext with
    | ExtResult.noKey => (fallbackReport l, Source.fallback)
    | ExtResult.requestError _ => (fallbackReport l, Source.fallback)
    | ExtResult.response status content _ =>
      if status == 200 then
        match content with
        | none => (fallbackReport l, Source.fallback)
        | some text =>
          match extractBraces text with
          | none => (fallbackReport l, Source.fallback)
          | some sub =>
            match jsonLoads sub with
            | some j => (j, Source.external)
            | none => (fallbackReport l, Source.fallback)
      else (fallbackReport l, Source.fallback)

/-- A `cv2.VideoCapture` handle; `isOpened` mirrors `VideoCapture.isOpened()`. -/
structure Cap where
  isOpened : Bool
deriving Repr, DecidableEq

/-- A detection worker thread handle; `alive` mirrors `Thread.is_alive()`. -/
structure ThreadH where
  alive : Bool
deriving Repr, DecidableEq

/-- The module-level mutable state of lines 29-32: `video_capture`,
`streaming`, `detection_thread`. -/
structure SysState where
  video_capture : Option Cap
  streaming : Bool
  detection_thread : Option ThreadH
deriving Repr, DecidableEq

/-- Observable resource/lifecycle events of `start_stream`, in program order. -/
inductive Ev where
  | releaseCap : Ev
  | openCap : Bool → Ev
  | joinThread : Ev
  | spawnThread : Ev
deriving Repr, DecidableEq

/-- Result body of the `/start-stream` endpoint. -/
inductive StartResult where
  | ok : String → StartResult
  | error : String → StartResult
deriving Repr, DecidableEq

/-- Lines 242-269: `start_stream`, with the camera-open outcome an explicit
input and the sequence of resource events recorded in program order. -/
def start_stream (st : SysState) (cameraOpens : Bool) :
    SysState × StartResult × List Ev :=
  let s1 : SysState × List Ev :=
    match st.video_capture with
    | some _ => ({ st with video_capture := none }, [Ev.releaseCap])
    | none => (st, [])
  let s2 : SysState := { s1.1 with video_capture := some ⟨cameraOpens⟩ }
  let tr2 := s1.2 ++ [Ev.openCap cameraOpens]
  if cameraOpens = false then
    (s2, StartResult.error "Could not open camera", tr2)
  else
    let s3 : SysState := { s2 with streaming := true }
    let s4 : SysState × List Ev :=
      match s3.detection_thread with
      | some t =>
        if t.alive then
          ({ s3 with streaming := false, detection_thread := some ⟨false⟩ },
            tr2 ++ [Ev.joinThread])
        else (s3, tr2)
      | none => (s3, tr2)
    ({ s4.1 with detection_thread := some ⟨true⟩ },
      StartResult.ok "Streaming started", s4.2 ++ [Ev.spawnThread])

/-- Lines 271-272: the `StopStreamRequest` model — an omitted
`accumulated_objects` field takes the default `[]`; an explicit `null`
stays `None`. -/
def parseStopRequest : Option (Option (List Detection)) → Option (List Detection)
  | none => some []
  | some v => v

/-- Response body of the `/stop-stream` endpoint. -/
structure StopResponse where
  message : String
  analysis : Json
  source : Source

/-- Lines 274-286: `stop_stream` clears the streaming flag, analyzes the
accumulated objects and returns the report. -/
def stop_stream (st : SysState) (body : Option (Option (List Detection)))
    (ext : ExtResult) : SysState × StopResponse :=
  let st2 : SysState := { st with streaming := false }
  let a := analyze_threat_with_groq (parseStopRequest body) ext
  (st2, ⟨"Streaming stopped", a.1, a.2⟩)

/-- One YOLO box of lines 71-78: class index, confidence, corner coordinates. -/
structure Box where
  cls : ℕ
  conf : ℚ
  x1 : ℤ
  y1 : ℤ
  x2 : ℤ
  y2 : ℤ
deriving Repr, DecidableEq

/-- One entry of `detected_objects` (lines 80-84). -/
structure DetObj where
  class_name : String
  confidence : ℚ
  bbox : List ℤ
deriving Repr, DecidableEq

/-- The dict appended at lines 80-84 for one box. -/
def mkDetObj (names : ℕ → String) (b : Box) : DetObj :=
  ⟨names b.cls, b.conf, [b.x1, b.y1, b.x2, b.y2]⟩

/-- Lines 68-84 of `detection_loop`: the per-frame loop that keeps exactly
the boxes with `box.conf[0] > 0.4`, in order. -/
def detectionLoopObjects (names : ℕ → String) : List Box → List DetObj
  | [] => []
  | b :: bs =>
    if b.conf > 0.4 then mkDetObj names b :: detectionLoopObjects names bs
    else detectionLoopObjects names bs

/-- The `detection_data` dict of lines 96-101. -/
structure DetectionBatch where
  objects : List DetObj
  timestamp : String
  frame_width : ℕ
  frame_height : ℕ
deriving Repr, DecidableEq

/-- Lines 96-101: build the batch broadcast for one frame. -/
def buildBatch (names : ℕ → String) (boxes : List Box) (ts : String)
    (w h : ℕ) : DetectionBatch :=
  ⟨detectionLoopObjects names boxes, ts, w, h⟩

/-- Result of one `broadcast_detection_data` call: the subscribers a send was
attempted to (in order), those whose send succeeded, and the live set left
behind after the deferred removals. -/
structure BroadcastOut where
  attempted : List ℕ
  delivered : List ℕ
  live : List ℕ
deriving Repr, DecidableEq

/-- Lines 46-50: the `for websocket in connected_websockets` loop — returns
(attempted, delivered, disconnected), each in iteration order. -/
def sendLoop (send : ℕ → Bool) : List ℕ → List ℕ × List ℕ × List ℕ
  | [] => ([], [], [])
  | w :: ws =>
    let r := sendLoop send ws
    if send w then (w :: r.1, w :: r.2.1, r.2.2)
    else (w :: r.1, r.2.1, w :: r.2.2)

/-- Lines 42-54: `broadcast_detection_data` — attempt delivery to every
current subscriber, collect failures, then remove them after the loop. -/
def broadcast_detection_data (send : ℕ → Bool) (subs : List ℕ) : BroadcastOut :=
  if subs.isEmpty then ⟨[], [], subs⟩
  else
    let r := sendLoop send subs
    ⟨r.1, r.2.1, r.2.2.foldl (fun acc w => acc.erase w) subs⟩

/-- Python's `list.remove(x)`: drop the first occurrence of `x`, or raise
`ValueError` when `x` is absent. -/
def listRemove (l : List ℕ) (w : ℕ) : Except String (List ℕ) :=
  if w ∈ l then Except.ok (l.erase w) else
    Except.error "ValueError: list.remove(x): x not in list"

/-- Lines 297-298: the `WebSocketDisconnect` handler removes the websocket
from `connected_websockets` via `list.remove`. -/
def websocketDisconnectCleanup (subs : List ℕ) (w : ℕ) : Except String (List ℕ) :=
  listRemove subs w

/-- The seven fields of a `ThreatReport`. -/
def reportKeys : List String :=
  ["threat_level", "threat_percentage", "risk_breakdown", "flagged_content",
   "detected_keywords", "summary", "recommendations"]

/-!
## Theorems
-/

/-- Helper: a non-empty detection list is not Python-falsy. -/
theorem pyFalsy_of_ne_nil (objs : List Detection) (h : objs ≠ []) :
    pyFalsy (some objs) = false := by
  cases objs with
  | nil => exact absurd rfl h
  | cons a l => rfl

/-- Helper: whenever the external exchange fails, the analyzer returns the
fallback report. -/
theorem analyze_fallback_of_extFails (objs : List Detection) (ext : ExtResult)
    (h : objs ≠ []) (hf : extFails ext = true) :
    analyze_threat_with_groq (some objs) ext =
      (fallbackReport objs, Source.fallback) := by
  have hp := pyFalsy_of_ne_nil objs h
  cases ext with
  | noKey => simp [analyze_threat_with_groq, hp]
  | requestError m => simp [analyze_threat_with_groq, hp]
  | response status content body =>
    simp only [analyze_threat_with_groq, hp, Bool.false_eq_true, if_false]
    simp only [extFails] at hf
    cases hs : (status == 200) with
    | false => simp [hs] at hf ⊢
    | true =>
      simp only [hs, if_true] at hf ⊢
      cases content with
      | none => simp
      | some text =>
        cases he : extractBraces text with
        | none => simp [he]
        | some sub =>
          simp only [he] at hf ⊢
          cases hj : jsonLoads sub with
          | none => simp [hj]
          | some j => simp [hj] at hf

/-- Helper: whenever the external exchange succeeds, the analyzer returns the
parsed JSON with source `external`. -/
theorem analyze_external_of_not_extFails (objs : List Detection) (ext : ExtResult)
    (h : objs ≠ []) (hf : extFails ext = false) :
    ∃ j, analyze_threat_with_groq (some objs) ext = (j, Source.external) := by
  have hp := pyFalsy_of_ne_nil objs h
  cases ext with
  | noKey => simp [extFails] at hf
  | requestError m => simp [extFails] at hf
  | response status content body =>
    simp only [analyze_threat_with_groq, hp, Bool.false_eq_true, if_false]
    simp only [extFails] at hf
    cases hs : (status == 200) with
    | false => simp [hs] at hf
    | true =>
      simp only [hs, if_true] at hf ⊢
      cases content with
      | none => simp at hf
      | some text =>
        cases he : extractBraces text with
        | none => simp [he] at hf
        | some sub =>
          simp only [he] at hf ⊢
          cases hj : jsonLoads sub with
          | none => simp [hj] at hf
          | some j => exact ⟨j, by simp [hj]⟩

/-- Helper: the fallback report always carries all seven `ThreatReport`
fields, whichever branch built it. -/
theorem fallbackReport_hasKeys (objs : List Detection) :
    ∀ k ∈ reportKeys, ((fallbackReport objs).getKey k).isSome = true := by
  intro k hk
  simp only [reportKeys, List.mem_cons, List.not_mem_nil, or_false] at hk
  cases hke : (fallbackKeywords objs).isEmpty <;>
    rcases hk with rfl | rfl | rfl | rfl | rfl | rfl | rfl <;>
      simp [fallbackReport, Json.getKey, hke, List.lookup]

/-- C1: on a non-empty detection sequence with a failing external reasoning
call, the analyzer applies the fallback heuristic: the detections whose class
name contains (case-insensitively) weapon/knife/gun/scissors are the matched
set; a non-empty matched set yields threat_level "high", threat_percentage
min(100, 20·matches) and risk_breakdown (pct, 100−pct, 0); an empty matched
set yields "low" and 0. In particular one matching knife detection yields
high/20/["knife"], and two matching detections yield 40 with breakdown
(40, 60, 0). -/
theorem c1_fallback_heuristic (objs : List Detection) (ext : ExtResult)
    (h : objs ≠ []) (hf : extFails ext = true) :
    analyze_threat_with_groq (some objs) ext =
      (fallbackReport objs, Source.fallback) ∧
    (fallbackKeywords objs ≠ [] →
      (fallbackReport objs).getKey "threat_level" = some (Json.str "high") ∧
      (fallbackReport objs).getKey "threat_percentage" =
        some (Json.num ((min 100 ((fallbackKeywords objs).length * 20) : ℕ) : ℚ)) ∧
      (fallbackReport objs).getKey "risk_breakdown" = some (Json.obj
        [("high", Json.num ((min 100 ((fallbackKeywords objs).length * 20) : ℕ) : ℚ)),
         ("medium", Json.num ((100 - min 100 ((fallbackKeywords objs).length * 20) : ℕ) : ℚ)),
         ("low", Json.num 0)]) ∧
      (fallbackReport objs).getKey "detected_keywords" =
        some (Json.arr ((fallbackKeywords objs).map Json.str))) ∧
    (fallbackKeywords objs = [] →
      (fallbackReport objs).getKey "threat_level" = some (Json.str "low") ∧
      (fallbackReport objs).getKey "threat_percentage" = some (Json.num 0)) ∧
    (analyze_threat_with_groq (some [⟨"knife", 9/10⟩]) ExtResult.noKey).1.getKey
      "threat_level" = some (Json.str "high") ∧
    (analyze_threat_with_groq (some [⟨"knife", 9/10⟩]) ExtResult.noKey).1.getKey
      "threat_percentage" = some (Json.num 20) ∧
    (analyze_threat_with_groq (some [⟨"knife", 9/10⟩]) ExtResult.noKey).1.getKey
      "detected_keywords" = some (Json.arr [Json.str "knife"]) ∧
    (analyze_threat_with_groq (some [⟨"knife", 9/10⟩, ⟨"gun", 7/10⟩])
      ExtResult.noKey).1.getKey "threat_percentage" = some (Json.num 40) ∧
    (analyze_threat_with_groq (some [⟨"knife", 9/10⟩, ⟨"gun", 7/10⟩])
      ExtResult.noKey).1.getKey "risk_breakdown" = some (Json.obj
        [("high", Json.num 40), ("medium", Json.num 60), ("low", Json.num 0)]) := by
  refine ⟨analyze_fallback_of_extFails objs ext h hf, ?_, ?_, rfl, rfl, rfl, rfl, rfl⟩
  · intro hk
    have hke : (fallbackKeywords objs).isEmpty = false := by
      cases hx : fallbackKeywords objs with
      | nil => exact absurd hx hk
      | cons a l => rfl
    refine ⟨?_, ?_, ?_, ?_⟩ <;> simp [fallbackReport, Json.getKey, hke, List.lookup]
  · intro hk
    have hke : (fallbackKeywords objs).isEmpty = true := by simp [hk]
    refine ⟨?_, ?_⟩ <;> simp [fallbackReport, Json.getKey, hke, List.lookup]

/-- Witness for C1 at a single knife detection with a missing credential. -/
theorem c1_fallback_heuristic_witness :
    (([⟨"knife", 9/10⟩] : List Detection) ≠ [] ∧ extFails ExtResult.noKey = true) ∧
    (analyze_threat_with_groq (some [⟨"knife", 9/10⟩]) ExtResult.noKey =
      (fallbackReport [⟨"knife", 9/10⟩], Source.fallback) ∧
    (fallbackKeywords [⟨"knife", 9/10⟩] ≠ [] →
      (fallbackReport [⟨"knife", 9/10⟩]).getKey "threat_level" = some (Json.str "high") ∧
      (fallbackReport [⟨"knife", 9/10⟩]).getKey "threat_percentage" =
        some (Json.num ((min 100 ((fallbackKeywords [⟨"knife", 9/10⟩]).length * 20) : ℕ) : ℚ)) ∧
      (fallbackReport [⟨"knife", 9/10⟩]).getKey "risk_breakdown" = some (Json.obj
        [("high", Json.num ((min 100 ((fallbackKeywords [⟨"knife", 9/10⟩]).length * 20) : ℕ) : ℚ)),
         ("medium", Json.num ((100 - min 100 ((fallbackKeywords [⟨"knife", 9/10⟩]).length * 20) : ℕ) : ℚ)),
         ("low", Json.num 0)]) ∧
      (fallbackReport [⟨"knife", 9/10⟩]).getKey "detected_keywords" =
        some (Json.arr ((fallbackKeywords [⟨"knife", 9/10⟩]).map Json.str))) ∧
    (fallbackKeywords [⟨"knife", 9/10⟩] = [] →
      (fallbackReport [⟨"knife", 9/10⟩]).getKey "threat_level" = some (Json.str "low") ∧
      (fallbackReport [⟨"knife", 9/10⟩]).getKey "threat_percentage" = some (Json.num 0)) ∧
    (analyze_threat_with_groq (some [⟨"knife", 9/10⟩]) ExtResult.noKey).1.getKey
      "threat_level" = some (Json.str "high") ∧
    (analyze_threat_with_groq (some [⟨"knife", 9/10⟩]) ExtResult.noKey).1.getKey
      "threat_percentage" = some (Json.num 20) ∧
    (analyze_threat_with_groq (some [⟨"knife", 9/10⟩]) ExtResult.noKey).1.getKey
      "detected_keywords" = some (Json.arr [Json.str "knife"]) ∧
    (analyze_threat_with_groq (some [⟨"knife", 9/10⟩, ⟨"gun", 7/10⟩])
      ExtResult.noKey).1.getKey "threat_percentage" = some (Json.num 40) ∧
    (analyze_threat_with_groq (some [⟨"knife", 9/10⟩, ⟨"gun", 7/10⟩])
      ExtResult.noKey).1.getKey "risk_breakdown" = some (Json.obj
        [("high", Json.num 40), ("medium", Json.num 60), ("low", Json.num 0)])) :=
  ⟨⟨List.cons_ne_nil _ _, rfl⟩,
    c1_fallback_heuristic [⟨"knife", 9/10⟩] ExtResult.noKey (List.cons_ne_nil _ _) rfl⟩

/-- C2: for a non-empty input, every failure of the external exchange is
absorbed: the analyzer returns the fallback report, whose seven fields are
all present; a successful exchange returns the externally parsed report; the
two sources are mutually exclusive and exhaustive per invocation. -/
theorem c2_errors_absorbed (objs : List Detection) (ext : ExtResult)
    (h : objs ≠ []) :
    (extFails ext = true →
      analyze_threat_with_groq (some objs) ext =
        (fallbackReport objs, Source.fallback) ∧
      ∀ k ∈ reportKeys,
        (((analyze_threat_with_groq (some objs) ext).1).getKey k).isSome = true) ∧
    (extFails ext = false →
      (analyze_threat_with_groq (some objs) ext).2 = Source.external) ∧
    ((analyze_threat_with_groq (some objs) ext).2 = Source.fallback ↔
      ¬ (analyze_threat_with_groq (some objs) ext).2 = Source.external) := by
  refine ⟨?_, ?_, ?_⟩
  · intro hf
    have habs := analyze_fallback_of_extFails objs ext h hf
    refine ⟨habs, ?_⟩
    rw [habs]
    exact fallbackReport_hasKeys objs
  · intro hf
    obtain ⟨j, hj⟩ := analyze_external_of_not_extFails objs ext h hf
    rw [hj]
  · cases hf : extFails ext with
    | true => rw [analyze_fallback_of_extFails objs ext h hf]; simp
    | false =>
      obtain ⟨j, hj⟩ := analyze_external_of_not_extFails objs ext h hf
      rw [hj]; simp

/-- Witness for C2 at a single detection with a raised network error. -/
theorem c2_errors_absorbed_witness :
    (([⟨"person", 1/2⟩] : List Detection) ≠ []) ∧
    ((extFails (ExtResult.requestError "timeout") = true →
      analyze_threat_with_groq (some [⟨"person", 1/2⟩]) (ExtResult.requestError "timeout") =
        (fallbackReport [⟨"person", 1/2⟩], Source.fallback) ∧
      ∀ k ∈ reportKeys,
        (((analyze_threat_with_groq (some [⟨"person", 1/2⟩])
          (ExtResult.requestError "timeout")).1).getKey k).isSome = true) ∧
    (extFails (ExtResult.requestError "timeout") = false →
      (analyze_threat_with_groq (some [⟨"person", 1/2⟩])
        (ExtResult.requestError "timeout")).2 = Source.external) ∧
    ((analyze_threat_with_groq (some [⟨"person", 1/2⟩])
        (ExtResult.requestError "timeout")).2 = Source.fallback ↔
      ¬ (analyze_threat_with_groq (some [⟨"person", 1/2⟩])
        (ExtResult.requestError "timeout")).2 = Source.external)) :=
  ⟨List.cons_ne_nil _ _,
    c2_errors_absorbed [⟨"person", 1/2⟩] (ExtResult.requestError "timeout")
      (List.cons_ne_nil _ _)⟩

/-- C3: on the empty accumulated-detection sequence the analyzer — and hence
stop() — returns the deterministic low report (threat_level "low",
threat_percentage 0, risk_breakdown (0, 0, 100)), independently of the
external world, and the report source is not the external call. -/
theorem c3_empty_input_low (ext ext2 : ExtResult) (st : SysState) :
    analyze_threat_with_groq (some []) ext = (emptyReport, Source.emptyInput) ∧
    analyze_threat_with_groq (some []) ext = analyze_threat_with_groq (some []) ext2 ∧
    Source.emptyInput ≠ Source.external ∧
    emptyReport.getKey "threat_level" = some (Json.str "low") ∧
    emptyReport.getKey "threat_percentage" = some (Json.num 0) ∧
    emptyReport.getKey "risk_breakdown" = some (Json.obj
      [("high", Json.num 0), ("medium", Json.num 0), ("low", Json.num 100)]) ∧
    (stop_stream st (some (some [])) ext).2.analysis = emptyReport ∧
    (stop_stream st (some (some [])) ext).2.source = Source.emptyInput :=
  ⟨rfl, rfl, by simp, rfl, rfl, rfl, rfl, rfl⟩

/-- C4: a detected box enters the emitted batch exactly when its confidence
is strictly greater than 0.4; at the boundary, confidence 0.4 is excluded
and 0.4001 is included. -/
theorem c4_confidence_threshold (names : ℕ → String) (boxes : List Box)
    (ts : String) (w h : ℕ) (d : DetObj) :
    (d ∈ (buildBatch names boxes ts w h).objects ↔
      ∃ b ∈ boxes, b.conf > 0.4 ∧ d = mkDetObj names b) ∧
    detectionLoopObjects names [⟨0, 0.4, 0, 0, 1, 1⟩] = [] ∧
    detectionLoopObjects names [⟨0, 0.4001, 0, 0, 1, 1⟩] =
      [mkDetObj names ⟨0, 0.4001, 0, 0, 1, 1⟩] := by
  refine ⟨?_, by norm_num [detectionLoopObjects], by norm_num [detectionLoopObjects]⟩
  show d ∈ detectionLoopObjects names boxes ↔ _
  induction boxes with
  | nil => simp [detectionLoopObjects]
  | cons b bs ih =>
    by_cases hb : b.conf > 0.4 <;> simp [detectionLoopObjects, hb, ih]

/-- C5 (code bug evidence): calling `start_stream` while a worker thread is
alive releases the old capture, opens the new capture BEFORE joining the old
thread, and — because the join block runs after `streaming = True` and
resets it — returns success with `streaming` left `False`, so the freshly
spawned worker's loop condition is immediately false. -/
theorem c5_restart_leaves_streaming_false :
    start_stream ⟨some ⟨true⟩, true, some ⟨true⟩⟩ true =
      (⟨some ⟨true⟩, false, some ⟨true⟩⟩, StartResult.ok "Streaming started",
        [Ev.releaseCap, Ev.openCap true, Ev.joinThread, Ev.spawnThread]) ∧
    (start_stream ⟨some ⟨true⟩, true, some ⟨true⟩⟩ true).1.streaming = false ∧
    (start_stream ⟨some ⟨true⟩, true, some ⟨true⟩⟩ true).2.2.indexOf
        (Ev.openCap true) <
      (start_stream ⟨some ⟨true⟩, true, some ⟨true⟩⟩ true).2.2.indexOf
        Ev.joinThread :=
  ⟨rfl, rfl, by decide⟩

/-- C6: when the camera cannot be opened, `start_stream` on an idle session
returns the explicit error, leaves the streaming flag down, spawns no
worker, leaves the thread slot unchanged (and dead), and holds no open
capture handle. -/
theorem c6_open_failure_stays_idle (st : SysState)
    (h1 : st.streaming = false)
    (h2 : ∀ t, st.detection_thread = some t → t.alive = false) :
    (start_stream st false).2.1 = StartResult.error "Could not open camera" ∧
    (start_stream st false).1.streaming = false ∧
    (∀ c, (start_stream st false).1.video_capture = some c →
      c.isOpened = false) ∧
    Ev.spawnThread ∉ (start_stream st false).2.2 ∧
    (start_stream st false).1.detection_thread = st.detection_thread ∧
    (∀ t, (start_stream st false).1.detection_thread = some t →
      t.alive = false) := by
  have hred : start_stream st false =
      ({ st with video_capture := some ⟨false⟩ },
        StartResult.error "Could not open camera",
        (match st.video_capture with
          | some _ => [Ev.releaseCap]
          | none => []) ++ [Ev.openCap false]) := by
    cases hvc : st.video_capture <;> simp [start_stream, hvc]
  rw [hred]
  refine ⟨rfl, h1, ?_, ?_, rfl, ?_⟩
  · intro c hc
    simp only [Option.some.injEq] at hc
    rw [← hc]
  · cases st.video_capture <;> simp
  · intro t ht
    exact h2 t ht

/-- Witness for C6 at the freshly started idle state. -/
theorem c6_open_failure_stays_idle_witness :
    ((⟨none, false, none⟩ : SysState).streaming = false ∧
      (∀ t, (⟨none, false, none⟩ : SysState).detection_thread = some t →
        t.alive = false)) ∧
    ((start_stream ⟨none, false, none⟩ false).2.1 =
        StartResult.error "Could not open camera" ∧
    (start_stream ⟨none, false, none⟩ false).1.streaming = false ∧
    (∀ c, (start_stream ⟨none, false, none⟩ false).1.video_capture = some c →
      c.isOpened = false) ∧
    Ev.spawnThread ∉ (start_stream ⟨none, false, none⟩ false).2.2 ∧
    (start_stream ⟨none, false, none⟩ false).1.detection_thread =
      (⟨none, false, none⟩ : SysState).detection_thread ∧
    (∀ t, (start_stream ⟨none, false, none⟩ false).1.detection_thread = some t →
      t.alive = false)) :=
  ⟨⟨rfl, fun _ ht => nomatch ht⟩,
    c6_open_failure_stays_idle ⟨none, false, none⟩ rfl (fun _ ht => nomatch ht)⟩

/-- Helper: the send loop attempts every subscriber, delivers to exactly
those whose send succeeds, and collects exactly the failing ones. -/
theorem sendLoop_spec (send : ℕ → Bool) (l : List ℕ) :
    (sendLoop send l).1 = l ∧ (sendLoop send l).2.1 = l.filter send ∧
    (sendLoop send l).2.2 = l.filter (fun w => !send w) := by
  induction l with
  | nil => exact ⟨rfl, rfl, rfl⟩
  | cons w ws ih =>
    cases hw : send w <;>
      simp [sendLoop, hw, ih.1, ih.2.1, ih.2.2, List.filter_cons]

/-- Helper: folding `erase` over a list of victims is `List.diff`. -/
theorem foldl_erase_eq_diff (ws l : List ℕ) :
    ws.foldl (fun acc w => acc.erase w) l = l.diff ws := by
  induction ws generalizing l with
  | nil => simp
  | cons w ws ih => simp [List.foldl_cons, List.diff_cons, ih]

/-- Helper: one publish attempts delivery to every current subscriber. -/
theorem broadcast_attempted (send : ℕ → Bool) (subs : List ℕ) :
    (broadcast_detection_data send subs).attempted = subs := by
  unfold broadcast_detection_data
  cases hs : subs.isEmpty
  · simp [(sendLoop_spec send subs).1]
  · simp only [List.isEmpty_iff] at hs
    simp [hs]

/-- Helper: one publish delivers to exactly the subscribers whose send
succeeds. -/
theorem broadcast_delivered (send : ℕ → Bool) (subs : List ℕ) :
    (broadcast_detection_data send subs).delivered = subs.filter send := by
  unfold broadcast_detection_data
  cases hs : subs.isEmpty
  · simp [(sendLoop_spec send subs).2.1]
  · simp only [List.isEmpty_iff] at hs
    simp [hs]

/-- Helper: for a duplicate-free live set, the deferred removals leave
exactly the subscribers whose send succeeded. -/
theorem broadcast_live (send : ℕ → Bool) (subs : List ℕ) (h : subs.Nodup) :
    (broadcast_detection_data send subs).live = subs.filter send := by
  unfold broadcast_detection_data
  cases hs : subs.isEmpty
  · simp only [Bool.false_eq_true, if_false]
    rw [(sendLoop_spec send subs).2.2, foldl_erase_eq_diff, h.diff_eq_filter]
    refine List.filter_congr ?_
    intro a ha
    by_cases hsa : send a = true <;> simp [List.mem_filter, ha, hsa]
  · simp only [List.isEmpty_iff] at hs
    simp [hs]

/-- C7: a publish attempts delivery to every current subscriber even when
some fail; every subscriber whose send succeeds receives the batch; failing
subscribers are removed only after the loop, leaving exactly the successful
ones; and a later publish never attempts delivery to a removed subscriber. -/
theorem c7_delivery_failure_isolation (send send2 : ℕ → Bool) (subs : List ℕ)
    (h : subs.Nodup) :
    (broadcast_detection_data send subs).attempted = subs ∧
    (broadcast_detection_data send subs).delivered = subs.filter send ∧
    (broadcast_detection_data send subs).live = subs.filter send ∧
    (∀ w ∈ subs, send w = false →
      w ∉ (broadcast_detection_data send subs).live ∧
      w ∉ (broadcast_detection_data send2
        ((broadcast_detection_data send subs).live)).attempted) := by
  refine ⟨broadcast_attempted send subs, broadcast_delivered send subs,
    broadcast_live send subs h, ?_⟩
  intro w hw hsw
  have hlive : w ∉ (broadcast_detection_data send subs).live := by
    rw [broadcast_live send subs h]
    simp [List.mem_filter, hsw]
  exact ⟨hlive, by rwa [broadcast_attempted]⟩

/-- Witness for C7 on the live set [0, 1, 2] where delivery to 2 fails. -/
theorem c7_delivery_failure_isolation_witness :
    ([0, 1, 2] : List ℕ).Nodup ∧
    ((broadcast_detection_data (fun w => w != 2) [0, 1, 2]).attempted = [0, 1, 2] ∧
    (broadcast_detection_data (fun w => w != 2) [0, 1, 2]).delivered =
      ([0, 1, 2] : List ℕ).filter (fun w => w != 2) ∧
    (broadcast_detection_data (fun w => w != 2) [0, 1, 2]).live =
      ([0, 1, 2] : List ℕ).filter (fun w => w != 2) ∧
    (∀ w ∈ ([0, 1, 2] : List ℕ), (fun w => w != 2) w = false →
      w ∉ (broadcast_detection_data (fun w => w != 2) [0, 1, 2]).live ∧
      w ∉ (broadcast_detection_data (fun w => w != 2)
        ((broadcast_detection_data (fun w => w != 2) [0, 1, 2]).live)).attempted)) :=
  ⟨by decide,
    c7_delivery_failure_isolation (fun w => w != 2) (fun w => w != 2) [0, 1, 2]
      (by decide)⟩

/-- C8 (code bug evidence): a subscriber pruned by a failed delivery is no
longer in the live set, and the disconnect handler's `list.remove` on it
then raises `ValueError` instead of being a no-op; the same call on a
present subscriber removes exactly it. -/
theorem c8_double_unsubscribe_raises :
    (broadcast_detection_data (fun w => w != 2) [0, 1, 2]).live = [0, 1] ∧
    websocketDisconnectCleanup [0, 1] 2 =
      Except.error "ValueError: list.remove(x): x not in list" ∧
    websocketDisconnectCleanup [0, 1, 2] 2 = Except.ok [0, 1] :=
  ⟨rfl, rfl, rfl⟩

/-- C9 counterexample: the response text `{"a": 1} }` contains a well-formed
embedded JSON object (`{"a": 1}`, here exhibited as a parsable infix), yet
the analyzer does not parse and return it: the greedy first-brace-to-last-
brace extraction yields an unparsable span, so the fallback fires. -/
theorem c9_first_json_object_counterexample :
    isInfixL "\x7b\"a\": 1\x7d".data "\x7b\"a\": 1\x7d \x7d".data = true ∧
    jsonLoads "\x7b\"a\": 1\x7d" = some (Json.obj [("a", Json.num 1)]) ∧
    extractBraces "\x7b\"a\": 1\x7d \x7d" = some "\x7b\"a\": 1\x7d \x7d" ∧
    analyze_threat_with_groq (some [⟨"person", 1/2⟩])
        (ExtResult.response 200 (some "\x7b\"a\": 1\x7d \x7d") "") =
      (fallbackReport [⟨"person", 1/2⟩], Source.fallback) :=
  ⟨rfl, rfl, rfl, rfl⟩

/-- C9 amended: on a 200 response, the analyzer extracts the span from the
first opening brace to the last closing brace of the message content and
returns its JSON parse when that span is well-formed; otherwise (no such
span, or the span fails to parse) the fallback is triggered. -/
theorem c9_amended_brace_span_parse (objs : List Detection) (text body : String)
    (h : objs ≠ []) :
    (∀ j, (extractBraces text).bind jsonLoads = some j →
      analyze_threat_with_groq (some objs) (ExtResult.response 200 (some text) body) =
        (j, Source.external)) ∧
    ((extractBraces text).bind jsonLoads = none →
      analyze_threat_with_groq (some objs) (ExtResult.response 200 (some text) body) =
        (fallbackReport objs, Source.fallback)) := by
  have hp := pyFalsy_of_ne_nil objs h
  constructor
  · intro j hj
    cases he : extractBraces text with
    | none => rw [he] at hj; exact absurd hj (by simp)
    | some sub =>
      rw [he, Option.some_bind] at hj
      simp [analyze_threat_with_groq, hp, he, hj]
  · intro hj
    cases he : extractBraces text with
    | none => simp [analyze_threat_with_groq, hp, he]
    | some sub =>
      rw [he, Option.some_bind] at hj
      simp [analyze_threat_with_groq, hp, he, hj]

/-- Witness for the amended C9 on a content text with junk around one
well-formed object. -/
theorem c9_amended_brace_span_parse_witness :
    (([⟨"person", 1/2⟩] : List Detection) ≠ []) ∧
    ((∀ j, (extractBraces "x\x7b\"a\": 1\x7dy").bind jsonLoads = some j →
      analyze_threat_with_groq (some [⟨"person", 1/2⟩])
          (ExtResult.response 200 (some "x\x7b\"a\": 1\x7dy") "") =
        (j, Source.external)) ∧
    ((extractBraces "x\x7b\"a\": 1\x7dy").bind jsonLoads = none →
      analyze_threat_with_groq (some [⟨"person", 1/2⟩])
          (ExtResult.response 200 (some "x\x7b\"a\": 1\x7dy") "") =
        (fallbackReport [⟨"person", 1/2⟩], Source.fallback))) ∧
    (extractBraces "x\x7b\"a\": 1\x7dy").bind jsonLoads =
      some (Json.obj [("a", Json.num 1)]) :=
  ⟨List.cons_ne_nil _ _,
    c9_amended_brace_span_parse [⟨"person", 1/2⟩] "x\x7b\"a\": 1\x7dy" ""
      (List.cons_ne_nil _ _), rfl⟩

/-- C10: a stop request whose body omits `accumulated_objects` parses to the
default empty list, so stop() returns the deterministic low report with no
external call, and clears the streaming flag. -/
theorem c10_omitted_field_defaults_empty (st : SysState) (ext : ExtResult) :
    parseStopRequest none = some [] ∧
    (stop_stream st none ext).2.analysis = emptyReport ∧
    (stop_stream st none ext).2.source = Source.emptyInput ∧
    Source.emptyInput ≠ Source.external ∧
    (stop_stream st none ext).1.streaming = false ∧
    emptyReport.getKey "threat_level" = some (Json.str "low") ∧
    emptyReport.getKey "threat_percentage" = some (Json.num 0) ∧
    emptyReport.getKey "risk_breakdown" = some (Json.obj
      [("high", Json.num 0), ("medium", Json.num 0), ("low", Json.num 100)]) :=
  ⟨rfl, rfl, rfl, by simp, rfl, rfl, rfl, rfl⟩

end App
